import Mathlib

/-!
Verification development for the tube-idea-generator streaming pipeline.

The orchestrator is the route handler `POST` (src/unnamed/part_003): it
parses the request body, validates the channel URL, then runs the fixed
five-stage pipeline, writing SSE frames (`data: {type, data}`) to the
response stream and closing it on every path.  The five collaborator calls
(`fetchChannelVideos`, `analyzeTopics`, `fetchRelevantNews`,
`searchRedditPosts`, `generateVideoIdeas`) are awaited promises, so each is
embedded as a function returning `Except String` — `.error m` standing for a
rejected promise carrying an error whose `message` is `m`.

The discussion-search collaborator `searchRedditPosts` (src/unnamed/part_001)
and the news collaborator `fetchRelevantNews` (src/lib/news.ts) are also
embedded in full, over oracles describing what each upstream HTTP request
does (throws, returns a status, returns children/articles).
-/

namespace TubeIdea

/-- Model of `YouTubeVideo` from src/unnamed/part_000. -/
structure Video where
  id : String
  title : String
  description : String
  publishedAt : String
  thumbnail : String
deriving DecidableEq

/-- Model of `NewsArticle` from src/lib/news.ts. -/
structure NewsArticle where
  title : String
  url : String
  source : String
deriving DecidableEq

/-- Model of `RedditPost` from src/unnamed/part_001. -/
structure RedditPost where
  title : String
  url : String
  subreddit : String
deriving DecidableEq

/-- An idea as returned by `generateVideoIdeas` of src/lib/openai.ts. -/
structure VideoIdea where
  title : String
  thumbDesign : String
  videoIdea : String
deriving DecidableEq

/-- The payload of the terminal `complete` frame (src/unnamed/part_003,
lines 87-92). -/
structure PipelineResult where
  topics : List String
  news : List NewsArticle
  redditPosts : List RedditPost
  videoIdeas : List VideoIdea
deriving DecidableEq

/-- The optional `data` field a progress frame carries. -/
inductive ProgressData where
  | videoCount (n : Nat)
  | topics (ts : List String)
  | news (ns : List NewsArticle)
  | redditPosts (ps : List RedditPost)
  | videoIdeas (ideas : List VideoIdea)
deriving DecidableEq

/-- One SSE frame as written by `sendSSE`: `{type: "progress"|"complete"|
"error", data}`. -/
inductive SSEEvent where
  | progress (step message : String) (data : Option ProgressData)
  | complete (result : PipelineResult)
  | error (message : String)
deriving DecidableEq

/-- A JSON value, as far as the handler's `const { url } = await
request.json()` destructuring and the `!url || typeof url !== 'string'`
check inspect it. -/
inductive JsonValue where
  | str (s : String)
  | num (n : Int)
  | bool (b : Bool)
  | null
deriving DecidableEq

/-- The guard `if (!url || typeof url !== 'string')` (part_003 line 20):
`none` models a missing/undefined `url` field; a JS-falsy value (undefined,
null, "", 0, false) or a non-string value fails the guard.  Returns the
validated URL exactly when the field is a non-empty string. -/
def validateUrl : Option JsonValue → Option String
  | some (JsonValue.str s) => if s = "" then none else some s
  | _ => none

/-- Model of the outer catch message `error.message || default` (part_003
line 98): a falsy (empty) message is replaced by the default text
"An error occurred while analyzing the channel". -/
def catchMessage (m : String) : String :=
  if m = "" then "An error occurred while analyzing the channel" else m

/-- How many times each of the five collaborators was invoked during one
run (used to state the "no collaborator is invoked" properties). -/
structure CallCounts where
  videos : Nat
  topics : Nat
  news : Nat
  reddit : Nat
  ideas : Nat
deriving DecidableEq

/-- What one execution of the stream's `start` callback produces: the SSE
frames in emission order, whether `controller.close()` was reached, and the
collaborator call counts. -/
structure RunResult where
  frames : List SSEEvent
  closed : Bool
  calls : CallCounts
deriving DecidableEq

/-- The five collaborator calls the handler awaits, as black boxes:
`.error m` models a rejected promise whose error message is `m`. -/
structure Env where
  fetchChannelVideos : String → Except String (List Video)
  analyzeTopics : List Video → Except String (List String)
  fetchRelevantNews : List String → Except String (List NewsArticle)
  searchRedditPosts : List String → Except String (List RedditPost)
  generateVideoIdeas : List String → List NewsArticle → List RedditPost →
    List String → Except String (List VideoIdea)

/- The ten progress frames, verbatim from the `sendSSE(controller,
'progress', ...)` calls of part_003. -/

def fetchingVideosEvent : SSEEvent :=
  SSEEvent.progress "fetching_videos" "Fetching YouTube videos..." none

def videosFetchedEvent (n : Nat) : SSEEvent :=
  SSEEvent.progress "videos_fetched" ("Found " ++ toString n ++ " videos")
    (some (ProgressData.videoCount n))

def analyzingTopicsEvent : SSEEvent :=
  SSEEvent.progress "analyzing_topics" "Analyzing topics with AI..." none

def topicsAnalyzedEvent (topics : List String) : SSEEvent :=
  SSEEvent.progress "topics_analyzed"
    ("Identified " ++ toString topics.length ++ " main topics")
    (some (ProgressData.topics topics))

def fetchingNewsEvent : SSEEvent :=
  SSEEvent.progress "fetching_news" "Fetching relevant news..." none

def searchingRedditEvent : SSEEvent :=
  SSEEvent.progress "searching_reddit" "Searching Reddit discussions..." none

def newsFetchedEvent (news : List NewsArticle) : SSEEvent :=
  SSEEvent.progress "news_fetched"
    ("Found " ++ toString news.length ++ " news articles")
    (some (ProgressData.news news))

def redditSearchedEvent (redditPosts : List RedditPost) : SSEEvent :=
  SSEEvent.progress "reddit_searched"
    ("Found " ++ toString redditPosts.length ++ " Reddit discussions")
    (some (ProgressData.redditPosts redditPosts))

def generatingIdeasEvent : SSEEvent :=
  SSEEvent.progress "generating_ideas" "Generating video ideas with AI..." none

def ideasGeneratedEvent (videoIdeas : List VideoIdea) : SSEEvent :=
  SSEEvent.progress "ideas_generated" "Generated 5 video ideas"
    (some (ProgressData.videoIdeas videoIdeas))

/-- The route handler's `start(controller)` body (src/unnamed/part_003,
lines 16-102), stage by stage in source order.  `body` is the outcome of
`await request.json()` followed by the `{ url }` destructuring: `.error m`
when parsing (or destructuring) throws with message `m`, `.ok urlField`
otherwise.  Every stage's rejection falls to the single outer catch, which
emits one `error` frame with `catchMessage` and closes.  In stage 4 both
promises are created before the `Promise.all` await, so both collaborators
count as invoked even when one of them rejects; when both reject the model
reports the news error (the real code reports whichever rejection settles
first — no claim depends on that choice). -/
def POST (env : Env) (body : Except String (Option JsonValue)) : RunResult :=
  match body with
  | Except.error e =>
      ⟨[SSEEvent.error (catchMessage e)], true, ⟨0, 0, 0, 0, 0⟩⟩
  | Except.ok urlField =>
    match validateUrl urlField with
    | none =>
        ⟨[SSEEvent.error "YouTube channel URL is required"], true, ⟨0, 0, 0, 0, 0⟩⟩
    | some url =>
      match env.fetchChannelVideos url with
      | Except.error e =>
          ⟨[fetchingVideosEvent, SSEEvent.error (catchMessage e)], true,
            ⟨1, 0, 0, 0, 0⟩⟩
      | Except.ok videos =>
        if videos.length = 0 then
          ⟨[fetchingVideosEvent, SSEEvent.error "No videos found for this channel"],
            true, ⟨1, 0, 0, 0, 0⟩⟩
        else
          match env.analyzeTopics videos with
          | Except.error e =>
              ⟨[fetchingVideosEvent, videosFetchedEvent videos.length,
                analyzingTopicsEvent, SSEEvent.error (catchMessage e)], true,
                ⟨1, 1, 0, 0, 0⟩⟩
          | Except.ok topics =>
            match env.fetchRelevantNews topics, env.searchRedditPosts topics with
            | Except.error e, _ =>
                ⟨[fetchingVideosEvent, videosFetchedEvent videos.length,
                  analyzingTopicsEvent, topicsAnalyzedEvent topics,
                  fetchingNewsEvent, searchingRedditEvent,
                  SSEEvent.error (catchMessage e)], true, ⟨1, 1, 1, 1, 0⟩⟩
            | Except.ok _, Except.error e =>
                ⟨[fetchingVideosEvent, videosFetchedEvent videos.length,
                  analyzingTopicsEvent, topicsAnalyzedEvent topics,
                  fetchingNewsEvent, searchingRedditEvent,
                  SSEEvent.error (catchMessage e)], true, ⟨1, 1, 1, 1, 0⟩⟩
            | Except.ok news, Except.ok redditPosts =>
              match env.generateVideoIdeas topics news redditPosts
                  (videos.map Video.title) with
              | Except.error e =>
                  ⟨[fetchingVideosEvent, videosFetchedEvent videos.length,
                    analyzingTopicsEvent, topicsAnalyzedEvent topics,
                    fetchingNewsEvent, searchingRedditEvent,
                    newsFetchedEvent news, redditSearchedEvent redditPosts,
                    generatingIdeasEvent, SSEEvent.error (catchMessage e)], true,
                    ⟨1, 1, 1, 1, 1⟩⟩
              | Except.ok videoIdeas =>
                  ⟨[fetchingVideosEvent, videosFetchedEvent videos.length,
                    analyzingTopicsEvent, topicsAnalyzedEvent topics,
                    fetchingNewsEvent, searchingRedditEvent,
                    newsFetchedEvent news, redditSearchedEvent redditPosts,
                    generatingIdeasEvent, ideasGeneratedEvent videoIdeas,
                    SSEEvent.complete ⟨topics, news, redditPosts, videoIdeas⟩],
                    true, ⟨1, 1, 1, 1, 1⟩⟩

/-- A frame after which the stream closes: `complete` or `error`. -/
def isTerminal : SSEEvent → Bool
  | SSEEvent.progress _ _ _ => false
  | SSEEvent.complete _ => true
  | SSEEvent.error _ => true

/-- A `complete` frame. -/
def isComplete : SSEEvent → Bool
  | SSEEvent.complete _ => true
  | _ => false

/-- The step identifiers of the progress frames, in emission order. -/
def progressSteps (frames : List SSEEvent) : List String :=
  frames.filterMap fun e =>
    match e with
    | SSEEvent.progress s _ _ => some s
    | _ => none

/-- The consumer's `stepOrder` table (src/unnamed/part_002, lines 66-78):
the fixed display order of the recognized step identifiers. -/
def stepOrder : List String :=
  ["starting", "fetching_videos", "videos_fetched", "analyzing_topics",
   "topics_analyzed", "fetching_news", "searching_reddit", "news_fetched",
   "reddit_searched", "generating_ideas", "ideas_generated"]

/-- A step's rank in the fixed table. -/
def stepRank (s : String) : Nat := List.indexOf s stepOrder

/-- One entry of the consumer's progress list (src/unnamed/part_002). -/
structure ProgressStep where
  step : String
  message : String
  completed : Bool
deriving DecidableEq

/-- The consumer seeds its progress list with a local `starting` entry before
reading any frame (src/unnamed/part_002, lines 40-42). -/
def consumerInitialProgress : List ProgressStep :=
  [⟨"starting", "Starting analysis...", false⟩]

namespace Reddit

/-- A Reddit listing child's `data` object, as far as `searchRedditPosts`
(src/unnamed/part_001) reads it. -/
structure RawRedditChild where
  title : String
  permalink : String
  subreddit : String
  over_18 : Bool
deriving DecidableEq

/-- What one `axios.get(endpoint, ...)` inside `searchRedditPosts` does:
it throws (network error, timeout, or status ≥ 500 under the
`validateStatus: status < 500` option), or it resolves with a status and,
when `response.data?.data?.children` is present, that children list.  A
child with a falsy `data` field is `none`. -/
inductive RedditFetchOutcome where
  | thrown
  | ok (status : Nat) (children : Option (List (Option RawRedditChild)))

/-- Model of the `.map` in part_001: the reddit base URL prepended to the
permalink, plus the title and subreddit field picks. -/
def redditPostOfChild (d : RawRedditChild) : RedditPost :=
  ⟨d.title, "https://www.reddit.com" ++ d.permalink, d.subreddit⟩

/-- Model of the filter-and-map over the children (part_001, lines 75-81):
keep children with a truthy data field that are not over_18, then map. -/
def processChildren (cs : List (Option RawRedditChild)) : List RedditPost :=
  cs.filterMap fun c =>
    match c with
    | none => none
    | some d => if d.over_18 then none else some (redditPostOfChild d)

/-- The two endpoints tried per topic (part_001, lines 27-30). -/
def redditEndpoints : List String :=
  ["https://www.reddit.com/search.json", "https://old.reddit.com/search.json"]

/-- The inner endpoint loop for one topic (part_001, lines 35-105): a
thrown request, a 403, a 429, or a response with no children moves on to
the next endpoint; a response with children is processed and the loop
breaks.  `none` means every endpoint failed for this topic (the posts of
earlier topics are kept and the outer loop continues). -/
def tryEndpoints (f : String → RedditFetchOutcome) : List String → Option (List RedditPost)
  | [] => none
  | ep :: rest =>
    match f ep with
    | RedditFetchOutcome.thrown => tryEndpoints f rest
    | RedditFetchOutcome.ok status children =>
      if status = 403 ∨ status = 429 then tryEndpoints f rest
      else
        match children with
        | none => tryEndpoints f rest
        | some cs => some (processChildren cs)

/-- One `map.set(p.url, p)` step of `new Map(allPosts.map(post =>
[post.url, post]))`: a key already present keeps its position but takes the
new value; a new key is appended. -/
def mapInsertByUrl (m : List (String × RedditPost)) (p : RedditPost) :
    List (String × RedditPost) :=
  if m.any fun kv => kv.1 = p.url then
    m.map fun kv => if kv.1 = p.url then (kv.1, p) else kv
  else m ++ [(p.url, p)]

/-- Model of the Map-based URL deduplication (part_001, lines 109-111):
the values of the Map built by inserting each post keyed by its URL. -/
def dedupeByUrl (posts : List RedditPost) : List RedditPost :=
  (posts.foldl mapInsertByUrl []).map Prod.snd

/-- The outer topic loop of part_001: `allPosts` after the loop over
`searchTerms = topics.slice(0, 3)`, each topic contributing the posts of
its first successful endpoint (or nothing). -/
def collectPosts (f : String → String → RedditFetchOutcome)
    (topics : List String) : List RedditPost :=
  (topics.take 3).foldl
    (fun acc topic => acc ++ (tryEndpoints (f topic) redditEndpoints).getD []) []

/-- Model of `searchRedditPosts` (src/unnamed/part_001), over an oracle
`f topic endpoint` describing each upstream request: take the first 3 topics, try
the endpoints in order for each, concatenate the processed posts, then
deduplicate by URL and keep the first 10.  Every code path of the source
returns (the outer try/catch turns any escaping error into `[]`), so the
embedding is a total function. -/
def searchRedditPosts (f : String → String → RedditFetchOutcome)
    (topics : List String) : List RedditPost :=
  (dedupeByUrl (collectPosts f topics)).take 10

end Reddit

namespace News

/-- An article of the NewsAPI response, as far as `fetchRelevantNews`
(src/lib/news.ts) reads it: `title`/`url` are checked for truthiness,
`source?.name` falls back to `"Unknown"`.  `none` models an absent field,
`some ""` an empty one (both JS-falsy). -/
structure RawArticle where
  title : Option String
  url : Option String
  sourceName : Option String
deriving DecidableEq

/-- What the one `axios.get('https://newsapi.org/v2/everything', ...)` call
does: throws, or resolves with `response.data.articles` present or not. -/
inductive NewsFetchOutcome where
  | thrown
  | ok (articles : Option (List RawArticle))

/-- JS truthiness of an optional string field. -/
def truthyStr : Option String → Bool
  | none => false
  | some s => !(s = "")

/-- Model of `fetchRelevantNews` (src/lib/news.ts), over the API key from the
environment (`none`/empty → skip and return `[]`) and an oracle `f query`
for the one upstream request: on a thrown request or an articles-less
response the catch / fall-through returns `[]`; otherwise the articles with
truthy title and url are kept, capped at 5, and mapped to `NewsArticle`
with `source?.name || 'Unknown'`. -/
def fetchRelevantNews (apiKey : Option String) (f : String → NewsFetchOutcome)
    (topics : List String) : List NewsArticle :=
  match apiKey with
  | none => []
  | some key =>
    if key = "" then []
    else
      let mainTopic :=
        match topics.head? with
        | some t => if t = "" then String.intercalate " " topics else t
        | none => String.intercalate " " topics
      match f mainTopic with
      | NewsFetchOutcome.thrown => []
      | NewsFetchOutcome.ok none => []
      | NewsFetchOutcome.ok (some articles) =>
        ((articles.filter fun a => truthyStr a.title && truthyStr a.url).take 5).map
          fun a =>
            ⟨a.title.getD "", a.url.getD "",
              if truthyStr a.sourceName then a.sourceName.getD "" else "Unknown"⟩

end News

/-! ## Mock collaborators used by witnesses -/

def mockVideo : Video := ⟨"vid1", "Intro to AI", "desc", "2024-01-01", "thumb"⟩

def mockVideo2 : Video := ⟨"vid2", "Tech Trends", "desc2", "2024-01-02", "thumb2"⟩

def mockVideo3 : Video := ⟨"vid3", "AI Agents", "desc3", "2024-01-03", "thumb3"⟩

def mockIdea : VideoIdea :=
  ⟨"Latest Updates on Tech - 2024", "Bold text on gradient", "Cover the trends"⟩

def mockIdea2 : VideoIdea := ⟨"AI in 2024", "Gradient background", "Discuss AI"⟩

def url0 : String := "https://www.youtube.com/@example"

/-- The spec's end-to-end scenario: 3 videos, topics `["Tech","AI"]`, no
news, no discussions, 2 ideas. -/
def mockEnv : Env :=
  ⟨fun _ => Except.ok [mockVideo, mockVideo2, mockVideo3],
   fun _ => Except.ok ["Tech", "AI"],
   fun _ => Except.ok [],
   fun _ => Except.ok [],
   fun _ _ _ _ => Except.ok [mockIdea, mockIdea2]⟩

/-! ## Shape of a run

Every execution of `POST` follows one of six frame shapes; all later event
and ordering properties are read off this enumeration. -/

/-- The stream is closed on every path. -/
theorem POST_closed (env : Env) (body : Except String (Option JsonValue)) :
    (POST env body).closed = true := by
  unfold POST
  repeat' split
  all_goals rfl

/-- The six possible frame sequences of a run. -/
theorem POST_frames_cases (env : Env) (body : Except String (Option JsonValue)) :
    (∃ m, (POST env body).frames = [SSEEvent.error m]) ∨
    (∃ m, (POST env body).frames = [fetchingVideosEvent, SSEEvent.error m]) ∨
    (∃ n m, (POST env body).frames =
      [fetchingVideosEvent, videosFetchedEvent n, analyzingTopicsEvent,
       SSEEvent.error m]) ∨
    (∃ n ts m, (POST env body).frames =
      [fetchingVideosEvent, videosFetchedEvent n, analyzingTopicsEvent,
       topicsAnalyzedEvent ts, fetchingNewsEvent, searchingRedditEvent,
       SSEEvent.error m]) ∨
    (∃ n ts ns ps m, (POST env body).frames =
      [fetchingVideosEvent, videosFetchedEvent n, analyzingTopicsEvent,
       topicsAnalyzedEvent ts, fetchingNewsEvent, searchingRedditEvent,
       newsFetchedEvent ns, redditSearchedEvent ps, generatingIdeasEvent,
       SSEEvent.error m]) ∨
    (∃ n ts ns ps ideas, (POST env body).frames =
      [fetchingVideosEvent, videosFetchedEvent n, analyzingTopicsEvent,
       topicsAnalyzedEvent ts, fetchingNewsEvent, searchingRedditEvent,
       newsFetchedEvent ns, redditSearchedEvent ps, generatingIdeasEvent,
       ideasGeneratedEvent ideas, SSEEvent.complete ⟨ts, ns, ps, ideas⟩]) := by
  unfold POST
  repeat' split
  all_goals first
    | exact Or.inl ⟨_, rfl⟩
    | exact Or.inr (Or.inl ⟨_, rfl⟩)
    | exact Or.inr (Or.inr (Or.inl ⟨_, _, rfl⟩))
    | exact Or.inr (Or.inr (Or.inr (Or.inl ⟨_, _, _, rfl⟩)))
    | exact Or.inr (Or.inr (Or.inr (Or.inr (Or.inl ⟨_, _, _, _, _, rfl⟩))))
    | exact Or.inr (Or.inr (Or.inr (Or.inr (Or.inr ⟨_, _, _, _, _, rfl⟩))))

/-- The progress steps of a run form an initial segment of the fixed step
table (with the consumer-only `starting` entry dropped). -/
theorem POST_steps_take (env : Env) (body : Except String (Option JsonValue)) :
    ∃ n, n ≤ 10 ∧
      progressSteps (POST env body).frames = (stepOrder.drop 1).take n := by
  rcases POST_frames_cases env body with
    ⟨m, h⟩ | ⟨m, h⟩ | ⟨n, m, h⟩ | ⟨n, ts, m, h⟩ | ⟨n, ts, ns, ps, m, h⟩ |
    ⟨n, ts, ns, ps, ideas, h⟩ <;> rw [h]
  · exact ⟨0, by decide, rfl⟩
  · exact ⟨1, by decide, rfl⟩
  · exact ⟨3, by decide, rfl⟩
  · exact ⟨6, by decide, rfl⟩
  · exact ⟨9, by decide, rfl⟩
  · exact ⟨10, by decide, rfl⟩

/-- C2: every run's frame list is a block of non-terminal progress frames
followed by exactly one terminal frame (`complete` or `error`), and the
stream is closed after it: no frame of any kind follows the terminal one. -/
theorem c2_exactly_one_terminal_event (env : Env)
    (body : Except String (Option JsonValue)) :
    (POST env body).closed = true ∧
    ∃ pre t, (POST env body).frames = pre ++ [t] ∧ isTerminal t = true ∧
      ∀ e ∈ pre, isTerminal e = false := by
  refine ⟨POST_closed env body, ?_⟩
  rcases POST_frames_cases env body with
    ⟨m, h⟩ | ⟨m, h⟩ | ⟨n, m, h⟩ | ⟨n, ts, m, h⟩ | ⟨n, ts, ns, ps, m, h⟩ |
    ⟨n, ts, ns, ps, ideas, h⟩ <;> rw [h]
  · exact ⟨[], SSEEvent.error m, rfl, rfl, by simp⟩
  · exact ⟨[fetchingVideosEvent], SSEEvent.error m, rfl, rfl, by
      simp [fetchingVideosEvent, isTerminal]⟩
  · exact ⟨[fetchingVideosEvent, videosFetchedEvent n, analyzingTopicsEvent],
      SSEEvent.error m, rfl, rfl, by
      simp [fetchingVideosEvent, videosFetchedEvent, analyzingTopicsEvent,
        isTerminal]⟩
  · exact ⟨[fetchingVideosEvent, videosFetchedEvent n, analyzingTopicsEvent,
      topicsAnalyzedEvent ts, fetchingNewsEvent, searchingRedditEvent],
      SSEEvent.error m, rfl, rfl, by
      simp [fetchingVideosEvent, videosFetchedEvent, analyzingTopicsEvent,
        topicsAnalyzedEvent, fetchingNewsEvent, searchingRedditEvent,
        isTerminal]⟩
  · exact ⟨[fetchingVideosEvent, videosFetchedEvent n, analyzingTopicsEvent,
      topicsAnalyzedEvent ts, fetchingNewsEvent, searchingRedditEvent,
      newsFetchedEvent ns, redditSearchedEvent ps, generatingIdeasEvent],
      SSEEvent.error m, rfl, rfl, by
      simp [fetchingVideosEvent, videosFetchedEvent, analyzingTopicsEvent,
        topicsAnalyzedEvent, fetchingNewsEvent, searchingRedditEvent,
        newsFetchedEvent, redditSearchedEvent, generatingIdeasEvent,
        isTerminal]⟩
  · exact ⟨[fetchingVideosEvent, videosFetchedEvent n, analyzingTopicsEvent,
      topicsAnalyzedEvent ts, fetchingNewsEvent, searchingRedditEvent,
      newsFetchedEvent ns, redditSearchedEvent ps, generatingIdeasEvent,
      ideasGeneratedEvent ideas], SSEEvent.complete ⟨ts, ns, ps, ideas⟩,
      rfl, rfl, by
      simp [fetchingVideosEvent, videosFetchedEvent, analyzingTopicsEvent,
        topicsAnalyzedEvent, fetchingNewsEvent, searchingRedditEvent,
        newsFetchedEvent, redditSearchedEvent, generatingIdeasEvent,
        ideasGeneratedEvent, isTerminal]⟩

/-- The fixed table itself has non-decreasing (indeed increasing) ranks. -/
theorem stepRank_chain_full :
    List.Chain' (fun a b => stepRank a ≤ stepRank b) (stepOrder.drop 1) := by
  simp only [stepOrder, List.drop]
  repeat'
    first
    | exact List.chain'_singleton _
    | refine List.chain'_cons.mpr ⟨by decide, ?_⟩

/-- C3: across any run the emitted progress steps have non-decreasing rank
in the fixed table, and whenever `reddit_searched` is emitted it comes
strictly after `news_fetched` — the producer writes them in that fixed
order after the stage-4 join, regardless of which promise settled first. -/
theorem c3_progress_rank_monotone (env : Env)
    (body : Except String (Option JsonValue)) :
    List.Chain' (fun a b => stepRank a ≤ stepRank b)
      (progressSteps (POST env body).frames) ∧
    ("reddit_searched" ∈ progressSteps (POST env body).frames →
      "news_fetched" ∈ progressSteps (POST env body).frames ∧
      List.indexOf "news_fetched" (progressSteps (POST env body).frames) <
        List.indexOf "reddit_searched" (progressSteps (POST env body).frames)) := by
  obtain ⟨n, hn, hs⟩ := POST_steps_take env body
  rw [hs]
  refine ⟨List.Chain'.take stepRank_chain_full n, ?_⟩
  interval_cases n <;> decide

/-- C9: the producer never emits a progress frame with step `starting`; the
first frame it writes is the `fetching_videos` progress frame or a terminal
`error` frame; the `starting` entry users see is seeded locally by the
consumer before it reads any frame. -/
theorem c9_producer_never_emits_starting (env : Env)
    (body : Except String (Option JsonValue)) :
    "starting" ∉ progressSteps (POST env body).frames ∧
    ((POST env body).frames.head? = some fetchingVideosEvent ∨
      ∃ m, (POST env body).frames.head? = some (SSEEvent.error m)) ∧
    consumerInitialProgress.map ProgressStep.step = ["starting"] := by
  refine ⟨?_, ?_, rfl⟩
  · obtain ⟨n, hn, hs⟩ := POST_steps_take env body
    rw [hs]
    intro hmem
    exact absurd (List.take_subset _ _ hmem) (by decide)
  · rcases POST_frames_cases env body with
      ⟨m, h⟩ | ⟨m, h⟩ | ⟨n, m, h⟩ | ⟨n, ts, m, h⟩ | ⟨n, ts, ns, ps, m, h⟩ |
      ⟨n, ts, ns, ps, ideas, h⟩ <;> rw [h]
    · exact Or.inr ⟨m, rfl⟩
    all_goals exact Or.inl rfl

/-- C4: a request whose `url` field is missing, the empty string, or not
string-typed produces a single terminal `error` frame as the very first
frame, the stream closes, and none of the five collaborators is invoked. -/
theorem c4_invalid_url_rejected_before_any_call (env : Env)
    (urlField : Option JsonValue)
    (h : urlField = none ∨ urlField = some (JsonValue.str "") ∨
      ∀ s : String, urlField ≠ some (JsonValue.str s)) :
    POST env (Except.ok urlField) =
      ⟨[SSEEvent.error "YouTube channel URL is required"], true,
        ⟨0, 0, 0, 0, 0⟩⟩ := by
  have hv : validateUrl urlField = none := by
    rcases h with rfl | rfl | h
    · rfl
    · rfl
    · match urlField with
      | none => rfl
      | some (JsonValue.str s) => exact absurd rfl (h s)
      | some (JsonValue.num n) => rfl
      | some (JsonValue.bool b) => rfl
      | some JsonValue.null => rfl
  simp [POST, hv]

/-- Witness for C4 at a request with no `url` field. -/
theorem c4_witness :
    POST mockEnv (Except.ok none) =
      ⟨[SSEEvent.error "YouTube channel URL is required"], true,
        ⟨0, 0, 0, 0, 0⟩⟩ :=
  c4_invalid_url_rejected_before_any_call mockEnv none (Or.inl rfl)

/-- C5: for a valid URL, a non-empty video lookup and collaborators that all
resolve, the terminal frame is `complete` carrying all four arrays. -/
theorem c5_success_terminal_complete (env : Env) (urlField : Option JsonValue)
    (url : String) (videos : List Video) (topics : List String)
    (news : List NewsArticle) (redditPosts : List RedditPost)
    (videoIdeas : List VideoIdea)
    (hu : validateUrl urlField = some url)
    (hv : env.fetchChannelVideos url = Except.ok videos)
    (hn : videos.length ≠ 0)
    (ht : env.analyzeTopics videos = Except.ok topics)
    (hw : env.fetchRelevantNews topics = Except.ok news)
    (hr : env.searchRedditPosts topics = Except.ok redditPosts)
    (hi : env.generateVideoIdeas topics news redditPosts (videos.map Video.title) =
      Except.ok videoIdeas) :
    (POST env (Except.ok urlField)).frames.getLast? =
      some (SSEEvent.complete ⟨topics, news, redditPosts, videoIdeas⟩) := by
  simp only [POST, hu, hv, ht, hw, hr, hi, if_neg hn]
  rfl

/-- Witness for C5: the spec's end-to-end scenario on `mockEnv`. -/
theorem c5_witness :
    (POST mockEnv (Except.ok (some (JsonValue.str url0)))).frames.getLast? =
      some (SSEEvent.complete ⟨["Tech", "AI"], [], [], [mockIdea, mockIdea2]⟩) :=
  c5_success_terminal_complete mockEnv (some (JsonValue.str url0)) url0
    [mockVideo, mockVideo2, mockVideo3] ["Tech", "AI"] [] [] [mockIdea, mockIdea2]
    rfl rfl (by decide) rfl rfl rfl rfl

/-- C7: a video lookup that resolves with an empty array yields the terminal
`error` frame about no videos found, right after the `fetching_videos`
progress frame; topic analysis and every later collaborator stay uninvoked
(their call counts are 0). -/
theorem c7_empty_lookup_terminal_error (env : Env) (urlField : Option JsonValue)
    (url : String)
    (hu : validateUrl urlField = some url)
    (hv : env.fetchChannelVideos url = Except.ok []) :
    POST env (Except.ok urlField) =
      ⟨[fetchingVideosEvent, SSEEvent.error "No videos found for this channel"],
        true, ⟨1, 0, 0, 0, 0⟩⟩ := by
  simp [POST, hu, hv]

/-- Witness for C7 on a collaborator returning zero videos. -/
theorem c7_witness :
    POST ⟨fun _ => Except.ok [], mockEnv.analyzeTopics, mockEnv.fetchRelevantNews,
        mockEnv.searchRedditPosts, mockEnv.generateVideoIdeas⟩
      (Except.ok (some (JsonValue.str url0))) =
      ⟨[fetchingVideosEvent, SSEEvent.error "No videos found for this channel"],
        true, ⟨1, 0, 0, 0, 0⟩⟩ :=
  c7_empty_lookup_terminal_error _ (some (JsonValue.str url0)) url0 rfl rfl

/-- C10: a body that is not valid JSON (the parse throws with message `e`,
which for a real JSON parse error is non-empty) produces exactly one
terminal `error` frame carrying that message, the stream closes, and no
collaborator is invoked. -/
theorem c10_invalid_json_terminal_error (env : Env) (e : String) (he : e ≠ "") :
    POST env (Except.error e) = ⟨[SSEEvent.error e], true, ⟨0, 0, 0, 0, 0⟩⟩ := by
  simp [POST, catchMessage, he]

/-- Witness for C10 at a concrete parse error message. -/
theorem c10_witness :
    POST mockEnv (Except.error "Unexpected end of JSON input") =
      ⟨[SSEEvent.error "Unexpected end of JSON input"], true, ⟨0, 0, 0, 0, 0⟩⟩ :=
  c10_invalid_json_terminal_error mockEnv "Unexpected end of JSON input"
    (by decide)

/-! ## C6: the outer catch substitutes a default for an empty message -/

/-- A video lookup rejecting with an error whose message is empty. -/
def envEmptyMessage : Env :=
  ⟨fun _ => Except.error "", fun _ => Except.ok [], fun _ => Except.ok [],
   fun _ => Except.ok [], fun _ _ _ _ => Except.ok []⟩

/-- Counterexample to C6 as stated: when video lookup rejects with message
`m = ""`, the catch's `error.message || default` emits the default text, not
`m` verbatim — the frame `error ""` never appears. -/
theorem c6_counterexample_empty_message :
    envEmptyMessage.fetchChannelVideos url0 = Except.error "" ∧
    (POST envEmptyMessage (Except.ok (some (JsonValue.str url0)))).frames =
      [fetchingVideosEvent,
       SSEEvent.error "An error occurred while analyzing the channel"] ∧
    SSEEvent.error "" ∉
      (POST envEmptyMessage (Except.ok (some (JsonValue.str url0)))).frames := by
  refine ⟨rfl, rfl, ?_⟩
  decide

/-- C6 (amended): if the video-lookup collaborator rejects with an error
whose message `m` is non-empty, the run's frames are exactly the
`fetching_videos` progress frame followed by one terminal `error` frame
carrying `m` verbatim (no retry), and no `complete` frame is emitted; an
empty message is replaced by the catch's default text. -/
theorem c6_amended_lookup_rejection_verbatim (env : Env)
    (urlField : Option JsonValue) (url m : String)
    (hu : validateUrl urlField = some url)
    (hv : env.fetchChannelVideos url = Except.error m)
    (hm : m ≠ "") :
    (POST env (Except.ok urlField)).frames =
      [fetchingVideosEvent, SSEEvent.error m] ∧
    ((POST env (Except.ok urlField)).frames.all fun e => !isComplete e) = true := by
  have hc : catchMessage m = m := if_neg hm
  refine ⟨?_, ?_⟩
  · simp [POST, hu, hv, hc]
  · simp only [POST, hu, hv]
    rfl

/-- Witness for the amended C6 at a concrete rejection message. -/
theorem c6_amended_witness :
    (POST ⟨fun _ => Except.error "Channel not found", mockEnv.analyzeTopics,
        mockEnv.fetchRelevantNews, mockEnv.searchRedditPosts,
        mockEnv.generateVideoIdeas⟩
      (Except.ok (some (JsonValue.str url0)))).frames =
      [fetchingVideosEvent, SSEEvent.error "Channel not found"] ∧
    ((POST ⟨fun _ => Except.error "Channel not found", mockEnv.analyzeTopics,
        mockEnv.fetchRelevantNews, mockEnv.searchRedditPosts,
        mockEnv.generateVideoIdeas⟩
      (Except.ok (some (JsonValue.str url0)))).frames.all
        fun e => !isComplete e) = true :=
  c6_amended_lookup_rejection_verbatim _ (some (JsonValue.str url0)) url0
    "Channel not found" rfl rfl (by decide)

/-! ## C1: stage-4 rejections are not isolated by the orchestrator -/

/-- A news-search collaborator that rejects; everything else resolves. -/
def envNewsRejects : Env :=
  ⟨fun _ => Except.ok [mockVideo], fun _ => Except.ok ["Tech"],
   fun _ => Except.error "news search failed", fun _ => Except.ok [],
   fun _ _ _ _ => Except.ok []⟩

/-- Counterexample to C1 as stated: with a news-search collaborator whose
promise rejects, the bare `Promise.all` rejects, the outer catch emits a
terminal `error` frame, and the run never reaches `complete` — the pipeline
does not fall back to `news: []`. -/
theorem c1_counterexample_news_rejection :
    envNewsRejects.fetchRelevantNews ["Tech"] =
      Except.error "news search failed" ∧
    (POST envNewsRejects (Except.ok (some (JsonValue.str url0)))).frames.getLast? =
      some (SSEEvent.error "news search failed") ∧
    ((POST envNewsRejects (Except.ok (some (JsonValue.str url0)))).frames.all
      fun e => !isComplete e) = true :=
  ⟨rfl, rfl, rfl⟩

/-- The shipped news collaborator resolves to `[]` when its one upstream
request throws (the internal catch). -/
theorem News.fetchRelevantNews_thrown (apiKey : Option String)
    (f : String → News.NewsFetchOutcome) (topics : List String)
    (hf : ∀ q, f q = News.NewsFetchOutcome.thrown) :
    News.fetchRelevantNews apiKey f topics = [] := by
  match apiKey with
  | none => rfl
  | some key =>
    simp only [News.fetchRelevantNews]
    split
    · rfl
    · rw [hf]

/-- With every upstream request throwing, the per-topic endpoint loop of the
shipped discussion search finds nothing. -/
theorem Reddit.tryEndpoints_thrown (f : String → Reddit.RedditFetchOutcome)
    (eps : List String) (hf : ∀ ep, f ep = Reddit.RedditFetchOutcome.thrown) :
    Reddit.tryEndpoints f eps = none := by
  induction eps with
  | nil => rfl
  | cons ep rest ih =>
    simp only [Reddit.tryEndpoints]
    rw [hf]
    exact ih

/-- The shipped discussion-search collaborator resolves to `[]` when every
upstream request throws (each per-topic/per-endpoint catch continues). -/
theorem Reddit.searchRedditPosts_thrown
    (f : String → String → Reddit.RedditFetchOutcome) (topics : List String)
    (hf : ∀ t ep, f t ep = Reddit.RedditFetchOutcome.thrown) :
    Reddit.searchRedditPosts f topics = [] := by
  unfold Reddit.searchRedditPosts Reddit.collectPosts
  have key : ∀ (l : List String) (acc : List RedditPost),
      l.foldl (fun acc topic =>
        acc ++ (Reddit.tryEndpoints (f topic) Reddit.redditEndpoints).getD []) acc =
        acc := by
    intro l
    induction l with
    | nil => intro acc; rfl
    | cons t ts ih =>
      intro acc
      simp only [List.foldl_cons]
      rw [Reddit.tryEndpoints_thrown (f t) _ (hf t)]
      simpa using ih acc
  simp only [key]
  rfl

/-- C1 (amended): the orchestrator does not catch a stage-4 rejection per
task — a rejecting news/discussion promise makes the bare `Promise.all`
reject and the run terminates with an `error` frame
(`c1_counterexample_news_rejection`).  Fault isolation lives inside the
shipped collaborators instead: they catch their own upstream failures and
resolve to `[]`, so with them plugged in, a run whose news and discussion
upstreams all fail still reaches the terminal `complete` frame with
`news = []` and `redditPosts = []`. -/
theorem c1_amended_shipped_collaborators_isolate (env : Env)
    (apiKey : Option String) (nf : String → News.NewsFetchOutcome)
    (rf : String → String → Reddit.RedditFetchOutcome)
    (urlField : Option JsonValue) (url : String) (videos : List Video)
    (topics : List String) (videoIdeas : List VideoIdea)
    (hnews : env.fetchRelevantNews =
      fun ts => Except.ok (News.fetchRelevantNews apiKey nf ts))
    (hreddit : env.searchRedditPosts =
      fun ts => Except.ok (Reddit.searchRedditPosts rf ts))
    (hnf : ∀ q, nf q = News.NewsFetchOutcome.thrown)
    (hrf : ∀ t ep, rf t ep = Reddit.RedditFetchOutcome.thrown)
    (hu : validateUrl urlField = some url)
    (hv : env.fetchChannelVideos url = Except.ok videos)
    (hn : videos.length ≠ 0)
    (ht : env.analyzeTopics videos = Except.ok topics)
    (hi : env.generateVideoIdeas topics [] [] (videos.map Video.title) =
      Except.ok videoIdeas) :
    (POST env (Except.ok urlField)).frames.getLast? =
      some (SSEEvent.complete ⟨topics, [], [], videoIdeas⟩) := by
  have hw : env.fetchRelevantNews topics = Except.ok [] := by
    rw [hnews]
    exact congrArg Except.ok (News.fetchRelevantNews_thrown apiKey nf topics hnf)
  have hr : env.searchRedditPosts topics = Except.ok [] := by
    rw [hreddit]
    exact congrArg Except.ok (Reddit.searchRedditPosts_thrown rf topics hrf)
  exact c5_success_terminal_complete env urlField url videos topics [] []
    videoIdeas hu hv hn ht hw hr hi

/-- Witness for the amended C1: concrete shipped collaborators whose every
upstream request throws, joined with succeeding mock stages. -/
theorem c1_amended_witness :
    (POST ⟨fun _ => Except.ok [mockVideo], fun _ => Except.ok ["Tech"],
        fun ts => Except.ok
          (News.fetchRelevantNews (some "key") (fun _ => News.NewsFetchOutcome.thrown) ts),
        fun ts => Except.ok
          (Reddit.searchRedditPosts (fun _ _ => Reddit.RedditFetchOutcome.thrown) ts),
        fun _ _ _ _ => Except.ok [mockIdea]⟩
      (Except.ok (some (JsonValue.str url0)))).frames.getLast? =
      some (SSEEvent.complete ⟨["Tech"], [], [], [mockIdea]⟩) :=
  c1_amended_shipped_collaborators_isolate _ (some "key")
    (fun _ => News.NewsFetchOutcome.thrown)
    (fun _ _ => Reddit.RedditFetchOutcome.thrown)
    (some (JsonValue.str url0)) url0 [mockVideo] ["Tech"] [mockIdea]
    rfl rfl (fun _ => rfl) (fun _ _ => rfl) rfl rfl (by decide) rfl rfl

/-! ## C8: the discussion-search contract -/

/-- Every post produced by the NSFW filter-and-map step comes from a child
with `over_18 = false`. -/
theorem Reddit.mem_processChildren {p : RedditPost}
    {cs : List (Option Reddit.RawRedditChild)}
    (h : p ∈ Reddit.processChildren cs) :
    ∃ d, some d ∈ cs ∧ d.over_18 = false ∧ p = Reddit.redditPostOfChild d := by
  unfold Reddit.processChildren at h
  obtain ⟨c, hc, he⟩ := List.mem_filterMap.mp h
  cases c with
  | none => simp at he
  | some d =>
    have he' : (if d.over_18 = true then none
        else some (Reddit.redditPostOfChild d)) = some p := he
    by_cases hd : d.over_18 = true
    · rw [if_pos hd] at he'
      exact absurd he' (by simp)
    · rw [if_neg hd] at he'
      exact ⟨d, hc, by simpa using hd, (Option.some.inj he').symm⟩

/-- When the endpoint loop returns posts, they are the processed children
of one endpoint's successful response. -/
theorem Reddit.tryEndpoints_eq_some {f : String → Reddit.RedditFetchOutcome}
    {eps : List String} {ps : List RedditPost}
    (h : Reddit.tryEndpoints f eps = some ps) :
    ∃ ep ∈ eps, ∃ status cs,
      f ep = Reddit.RedditFetchOutcome.ok status (some cs) ∧
      ps = Reddit.processChildren cs := by
  induction eps with
  | nil => exact absurd h (by simp [Reddit.tryEndpoints])
  | cons ep rest ih =>
    simp only [Reddit.tryEndpoints] at h
    split at h
    · obtain ⟨e, he, hrest⟩ := ih h
      exact ⟨e, List.mem_cons_of_mem _ he, hrest⟩
    · rename_i status children hfeq
      split at h
      · obtain ⟨e, he, hrest⟩ := ih h
        exact ⟨e, List.mem_cons_of_mem _ he, hrest⟩
      · split at h
        · obtain ⟨e, he, hrest⟩ := ih h
          exact ⟨e, List.mem_cons_of_mem _ he, hrest⟩
        · rename_i cs
          exact ⟨ep, List.mem_cons_self ep rest, status, cs, hfeq,
            (Option.some.inj h).symm⟩

/-- Membership in an appending fold comes from the accumulator or from one
of the folded elements. -/
theorem Reddit.mem_foldl_append {α β : Type} {g : α → List β} {l : List α}
    {acc : List β} {p : β}
    (h : p ∈ l.foldl (fun a t => a ++ g t) acc) :
    p ∈ acc ∨ ∃ t ∈ l, p ∈ g t := by
  induction l generalizing acc with
  | nil => exact Or.inl h
  | cons t ts ih =>
    simp only [List.foldl_cons] at h
    rcases ih h with h' | ⟨t', ht', hp⟩
    · rcases List.mem_append.mp h' with h'' | h''
      · exact Or.inl h''
      · exact Or.inr ⟨t, List.mem_cons_self t ts, h''⟩
    · exact Or.inr ⟨t', List.mem_cons_of_mem _ ht', hp⟩

/-- One `Map.set` step only stores values drawn from the inserted posts. -/
theorem Reddit.mem_mapInsertByUrl {m : List (String × RedditPost)}
    {p : RedditPost} {kv : String × RedditPost}
    (h : kv ∈ Reddit.mapInsertByUrl m p) : kv ∈ m ∨ kv.2 = p := by
  unfold Reddit.mapInsertByUrl at h
  by_cases hc : (m.any fun kv => kv.1 = p.url) = true
  · rw [if_pos hc] at h
    obtain ⟨kv0, hkv0, he⟩ := List.mem_map.mp h
    by_cases hk : kv0.1 = p.url
    · rw [if_pos hk] at he
      exact Or.inr (by rw [← he])
    · rw [if_neg hk] at he
      exact Or.inl (he ▸ hkv0)
  · rw [if_neg hc] at h
    rcases List.mem_append.mp h with h' | h'
    · exact Or.inl h'
    · have hkv : kv = (p.url, p) := by simpa using h'
      exact Or.inr (by rw [hkv])

/-- The values of the dedup map are drawn from the input posts. -/
theorem Reddit.mem_foldl_mapInsert {posts : List RedditPost}
    {m : List (String × RedditPost)} {kv : String × RedditPost}
    (h : kv ∈ posts.foldl Reddit.mapInsertByUrl m) : kv ∈ m ∨ kv.2 ∈ posts := by
  induction posts generalizing m with
  | nil => exact Or.inl h
  | cons p ps ih =>
    simp only [List.foldl_cons] at h
    rcases ih h with h' | h'
    · rcases Reddit.mem_mapInsertByUrl h' with h'' | h''
      · exact Or.inl h''
      · exact Or.inr (by rw [h'']; exact List.mem_cons_self p ps)
    · exact Or.inr (List.mem_cons_of_mem _ h')

/-- Deduplication keeps only posts of the input list. -/
theorem Reddit.mem_dedupeByUrl {posts : List RedditPost} {p : RedditPost}
    (h : p ∈ Reddit.dedupeByUrl posts) : p ∈ posts := by
  unfold Reddit.dedupeByUrl at h
  obtain ⟨kv, hkv, he⟩ := List.mem_map.mp h
  rcases Reddit.mem_foldl_mapInsert hkv with h' | h'
  · simp at h'
  · exact he ▸ h'

/-- Invariant of the dedup map: its keys are distinct and each stored post's
URL is its key. -/
def Reddit.goodMap (m : List (String × RedditPost)) : Prop :=
  (m.map Prod.fst).Nodup ∧ ∀ kv ∈ m, kv.2.url = kv.1

/-- One `Map.set` step preserves the invariant. -/
theorem Reddit.goodMap_insert {m : List (String × RedditPost)} {p : RedditPost}
    (h : Reddit.goodMap m) : Reddit.goodMap (Reddit.mapInsertByUrl m p) := by
  obtain ⟨h1, h2⟩ := h
  unfold Reddit.mapInsertByUrl
  by_cases hc : (m.any fun kv => kv.1 = p.url) = true
  · rw [if_pos hc]
    constructor
    · have hmap : ((m.map fun kv =>
          if kv.1 = p.url then (kv.1, p) else kv).map Prod.fst) = m.map Prod.fst := by
        rw [List.map_map]
        apply List.map_congr_left
        intro kv _
        by_cases hk : kv.1 = p.url
        · simp [hk]
        · simp [hk]
      rw [hmap]
      exact h1
    · intro kv hkv
      obtain ⟨kv0, hkv0, he⟩ := List.mem_map.mp hkv
      by_cases hk : kv0.1 = p.url
      · rw [if_pos hk] at he
        rw [← he]
        exact hk.symm
      · rw [if_neg hk] at he
        rw [← he]
        exact h2 kv0 hkv0
  · rw [if_neg hc]
    have hnp : p.url ∉ m.map Prod.fst := by
      intro hmem
      obtain ⟨kv, hkv, he⟩ := List.mem_map.mp hmem
      exact hc (List.any_eq_true.mpr ⟨kv, hkv, by simp [he]⟩)
    constructor
    · rw [List.map_append]
      simp [List.nodup_append, h1, hnp]
    · intro kv hkv
      rcases List.mem_append.mp hkv with h' | h'
      · exact h2 kv h'
      · have hkv' : kv = (p.url, p) := by simpa using h'
        rw [hkv']

/-- The whole dedup fold preserves the invariant. -/
theorem Reddit.goodMap_foldl (posts : List RedditPost)
    (m : List (String × RedditPost)) (h : Reddit.goodMap m) :
    Reddit.goodMap (posts.foldl Reddit.mapInsertByUrl m) := by
  induction posts generalizing m with
  | nil => exact h
  | cons p ps ih =>
    simp only [List.foldl_cons]
    exact ih _ (Reddit.goodMap_insert h)

/-- The deduplicated posts have pairwise distinct URLs. -/
theorem Reddit.dedupe_urls_nodup (posts : List RedditPost) :
    ((Reddit.dedupeByUrl posts).map RedditPost.url).Nodup := by
  have hg := Reddit.goodMap_foldl posts [] ⟨List.nodup_nil, by simp⟩
  unfold Reddit.dedupeByUrl
  have hmap : (((posts.foldl Reddit.mapInsertByUrl []).map Prod.snd).map
      RedditPost.url) = (posts.foldl Reddit.mapInsertByUrl []).map Prod.fst := by
    rw [List.map_map]
    exact List.map_congr_left fun kv hkv => hg.2 kv hkv
  rw [hmap]
  exact hg.1

/-- C8: for every oracle and topic list, the shipped discussion search (a
total function: every internal failure path returns) yields at most 10
posts, no two of which share a URL, and every returned post is the image of
some response child with `over_18 = false` — no adult post is returned. -/
theorem c8_discussion_search_contract
    (f : String → String → Reddit.RedditFetchOutcome) (topics : List String) :
    (Reddit.searchRedditPosts f topics).length ≤ 10 ∧
    ((Reddit.searchRedditPosts f topics).map RedditPost.url).Nodup ∧
    ∀ p ∈ Reddit.searchRedditPosts f topics, ∃ d : Reddit.RawRedditChild,
      d.over_18 = false ∧ p = Reddit.redditPostOfChild d ∧
      ∃ t ∈ topics.take 3, ∃ ep ∈ Reddit.redditEndpoints, ∃ status cs,
        f t ep = Reddit.RedditFetchOutcome.ok status (some cs) ∧ some d ∈ cs := by
  refine ⟨?_, ?_, ?_⟩
  · unfold Reddit.searchRedditPosts
    rw [List.length_take]
    exact min_le_left _ _
  · unfold Reddit.searchRedditPosts
    exact List.Nodup.sublist
      (List.Sublist.map RedditPost.url (List.take_sublist 10 _))
      (Reddit.dedupe_urls_nodup _)
  · intro p hp
    have hp1 : p ∈ Reddit.dedupeByUrl (Reddit.collectPosts f topics) :=
      List.take_subset _ _ hp
    have hp2 : p ∈ Reddit.collectPosts f topics := Reddit.mem_dedupeByUrl hp1
    unfold Reddit.collectPosts at hp2
    rcases Reddit.mem_foldl_append hp2 with h' | ⟨t, ht, hpt⟩
    · simp at h'
    · cases he : Reddit.tryEndpoints (f t) Reddit.redditEndpoints with
      | none =>
        rw [he] at hpt
        simp at hpt
      | some ps =>
        rw [he] at hpt
        obtain ⟨ep, hep, status, cs, hfeq, hps⟩ := Reddit.tryEndpoints_eq_some he
        rw [hps] at hpt
        obtain ⟨d, hd, hd18, hpd⟩ := Reddit.mem_processChildren hpt
        exact ⟨d, hd18, hpd, t, ht, ep, hep, status, cs, hfeq, hd⟩

end TubeIdea
